import Mathlib

/-!
Verification of the hand-gesture-to-digit pipeline.

This file gives a shallow embedding of the core of the repository:

* `recognizeNumber`   — `GestureRecognizer.recognize_number` (gesture_recognizer.py)
* `fingersUp`         — `HandDetector.fingers_up` (hand_detector.py); a Python
  `IndexError` raised by an out-of-range list access is modelled by `Option`
  failure (`none`), and Python list indexing by `List.getElem?`.
* `composeFrame`, `frameStep` — the two-hand composition and stability filter
  inlined in `generate_frames` (web_app.py, lines 250–355), with the stable
  sort of `list.sort(key=...)` modelled by a stable insertion sort.

Machine reals: all pixel coordinates are Python `int`s, embedded as `ℤ`.
The decimal constants `0.15`, `1.2`, `1.5` appearing in the source are
embedded as exact rationals (`ℚ`); this models the decimal
arithmetic exactly, idealising only the final IEEE-754 rounding of the
Python floats (which the decimal text of the program does not mandate).
-/

/-- Embedding of `GestureRecognizer.recognize_number` (gesture_recognizer.py, lines 39–149).
The Python code first rejects inputs whose length is not 5 (returning
`(-1, "未知")`), then destructures the five entries, sums them, and walks the
rule table.  Entries are embedded as `ℤ` (the callers pass 0/1 values). -/
def recognizeNumber (fingers : List ℤ) : ℤ × String :=
  match fingers with
  | [thumb, fore, middle, ringF, pinky] =>
    -- total_fingers_up = sum(fingers)
    let total := thumb + fore + middle + ringF + pinky
    if total = 0 then
      (0, "零")
    else if total = 1 then
      if thumb = 1 ∧ fore = 0 then (6, "讚")
      else if fore = 1 ∧ thumb = 0 then (1, "一")
      else (-1, "未知")
    else if total = 2 then
      if thumb = 0 ∧ fore = 1 ∧ middle = 1 ∧ ringF = 0 ∧ pinky = 0 then (2, "二")
      else (-1, "未知")
    else if total = 3 then
      if thumb = 0 ∧ fore = 1 ∧ middle = 1 ∧ ringF = 1 ∧ pinky = 0 then (3, "三")
      else if thumb = 0 ∧ fore = 0 ∧ middle = 1 ∧ ringF = 1 ∧ pinky = 1 then (3, "三")
      else (-1, "未知")
    else if total = 4 then
      if thumb = 0 ∧ fore = 1 ∧ middle = 1 ∧ ringF = 1 ∧ pinky = 1 then (4, "四")
      else (-1, "未知")
    else if total = 5 then
      (5, "五")
    else
      (-1, "未知")
  | _ => (-1, "未知")

/-- Encode a 5-tuple of booleans (thumb, index, middle, ring, pinky) as the
0/1 integer list that `HandDetector.fingers_up` hands to the recognizer. -/
def encodeFingers (t i m r p : Bool) : List ℤ :=
  [if t then 1 else 0, if i then 1 else 0, if m then 1 else 0,
   if r then 1 else 0, if p then 1 else 0]

/-- The rule table of the specification (§4.3), stated from the words of the spec:
exact pattern match on (thumb, index, middle, ring, pinky), every unlisted
pattern mapping to `(-1, "未知")`. -/
def specGestureTable (t i m r p : Bool) : ℤ × String :=
  match t, i, m, r, p with
  | false, false, false, false, false => (0, "零")
  | false, true,  false, false, false => (1, "一")
  | true,  false, false, false, false => (6, "讚")
  | false, true,  true,  false, false => (2, "二")
  | false, true,  true,  true,  false => (3, "三")
  | false, false, true,  true,  true  => (3, "三")
  | false, true,  true,  true,  true  => (4, "四")
  | true,  true,  true,  true,  true  => (5, "五")
  | _, _, _, _, _ => (-1, "未知")

/-- C1: for every 5-element 0/1 finger-state vector, `recognize_number`
returns exactly the rule-table result — the eight listed patterns map to
their listed `(gestureId, label)` pair and every other 0/1 vector maps to
`(-1, "未知")`; classification is exact pattern match, with no fallback. -/
theorem recognize_number_matches_rule_table (t i m r p : Bool) :
    recognizeNumber (encodeFingers t i m r p) = specGestureTable t i m r p := by
  cases t <;> cases i <;> cases m <;> cases r <;> cases p <;> decide

/-- C9: for every input list whatsoever, `recognize_number` returns a
gestureId in {-1, 0, 1, 2, 3, 4, 5, 6} — it never produces 7, 8, 9 or the
special ids 10–13 — and the label is "未知" exactly when the id is -1. -/
theorem recognize_number_range (fingers : List ℤ) :
    (recognizeNumber fingers).1 ∈ ([-1, 0, 1, 2, 3, 4, 5, 6] : List ℤ) ∧
    ((recognizeNumber fingers).2 = "未知" ↔ (recognizeNumber fingers).1 = -1) :=
  match fingers with
  | [] => by simp [recognizeNumber]
  | [a] => by simp [recognizeNumber]
  | [a, b] => by simp [recognizeNumber]
  | [a, b, c] => by simp [recognizeNumber]
  | [a, b, c, d] => by simp [recognizeNumber]
  | a :: b :: c :: d :: e :: f :: rest => by simp [recognizeNumber]
  | [a, b, c, d, e] => by
    simp only [recognizeNumber]
    split_ifs <;> simp_all

/-- One hand keypoint as produced by `HandDetector.find_position`: the tuple
`(id, cx, cy)` with pixel coordinates (Python `int`s, embedded as `ℤ`). -/
structure Landmark where
  id : ℕ
  x : ℤ
  y : ℤ
deriving DecidableEq, Repr

/-- Body of the `for id in range(1, 5)` loop of `HandDetector.fingers_up`
(hand_detector.py, lines 258–299) for one non-thumb finger: fetches the
y-coordinates at indices `tipId`, `tipId-1`, `tipId-2`, `tipId-3` (an
out-of-range access raises, modelled as `none`) and appends 1 when all five
conditions hold, else 0.  `1.5` is an exact binary float, so `ℚ` models the
Python float comparison of condition 5 exactly on integer coordinates. -/
def fingerCheck (l : List Landmark) (tipId : ℕ) : Option ℤ := do
  let tip ← l[tipId]?
  let dip ← l[tipId - 1]?
  let pip ← l[tipId - 2]?
  let mcp ← l[tipId - 3]?
  -- condition1 .. condition5 of the source
  if tip.y < dip.y ∧ dip.y ≤ pip.y + 5 ∧ pip.y ≤ mcp.y + 10 ∧ tip.y < mcp.y - 10 ∧
      ((mcp.y - tip.y : ℤ) : ℚ) > ((mcp.y - pip.y : ℤ) : ℚ) * 1.5 then
    pure 1
  else
    pure 0

/-- Embedding of `HandDetector.fingers_up` (hand_detector.py, lines 164–301).  An empty
landmark list returns the empty list; otherwise the thumb rule (handedness,
relative threshold, wrist-distance override) produces the first entry and the
four `fingerCheck` calls the rest.  Python list indexing is `List.getElem?`,
so an `IndexError` on a short list is `none`. -/
def fingersUp (l : List Landmark) : Option (List ℤ) :=
  if l.length = 0 then
    some []
  else do
    let wrist ← l[0]?
    let middleBase ← l[9]?
    let thumbTip ← l[4]?
    let _thumbIp ← l[3]?          -- fetched by the source, never used
    let thumbMcp ← l[2]?
    let indexBase ← l[5]?
    let pinkyBase ← l[17]?
    let isLeftHand := wrist.x > middleBase.x
    let palmWidth : ℤ := |indexBase.x - pinkyBase.x|
    let thumbDistance : ℤ := |thumbTip.x - thumbMcp.x|
    -- relative_threshold = max(palm_width * 0.15, 20)
    let relativeThreshold : ℚ := max ((palmWidth : ℚ) * 0.15) 20
    let thumbDirectional :=
      if isLeftHand then
        thumbTip.x < thumbMcp.x ∧ (thumbDistance : ℚ) > relativeThreshold
      else
        thumbTip.x > thumbMcp.x ∧ (thumbDistance : ℚ) > relativeThreshold
    let thumbToWristDist : ℤ := |thumbTip.x - wrist.x|
    let thumbJointToWristDist : ℤ := |thumbMcp.x - wrist.x|
    -- the override re-assignment `thumb_extended = True` makes the final
    -- value of `thumb_extended` the disjunction of the two rules
    let thumbExtended :=
      thumbDirectional ∨ (thumbToWristDist : ℚ) > (thumbJointToWristDist : ℚ) * 1.2
    let f0 : ℤ := if thumbExtended then 1 else 0
    let f1 ← fingerCheck l 8
    let f2 ← fingerCheck l 12
    let f3 ← fingerCheck l 16
    let f4 ← fingerCheck l 20
    pure [f0, f1, f2, f3, f4]

/-! ### Helper lemmas for reasoning about the `Option`-modelled list accesses -/

theorem optBind_some {α β : Type} (a : α) (f : α → Option β) :
    (some a : Option α) >>= f = f a := rfl

theorem bind_none_of_forall {α β : Type} {o : Option α} {f : α → Option β}
    (h : ∀ a, f a = none) : o.bind f = none := by
  cases o <;> simp [h]

theorem fingerCheck_none {l : List Landmark} {tipId : ℕ} (h : l[tipId]? = none) :
    fingerCheck l tipId = none := by
  simp [fingerCheck, h]

theorem fingerCheck_eq_of_lt {l : List Landmark} {tipId : ℕ} (h : tipId < l.length)
    (h3 : 3 ≤ tipId) :
    fingerCheck l tipId = some (if (l.get ⟨tipId, h⟩).y < (l.get ⟨tipId - 1, by omega⟩).y ∧
      (l.get ⟨tipId - 1, by omega⟩).y ≤ (l.get ⟨tipId - 2, by omega⟩).y + 5 ∧
      (l.get ⟨tipId - 2, by omega⟩).y ≤ (l.get ⟨tipId - 3, by omega⟩).y + 10 ∧
      (l.get ⟨tipId, h⟩).y < (l.get ⟨tipId - 3, by omega⟩).y - 10 ∧
      (((l.get ⟨tipId - 3, by omega⟩).y - (l.get ⟨tipId, h⟩).y : ℤ) : ℚ) >
        (((l.get ⟨tipId - 3, by omega⟩).y - (l.get ⟨tipId - 2, by omega⟩).y : ℤ) : ℚ) * 1.5
      then (1 : ℤ) else 0) := by
  have e0 : l[tipId]? = some (l.get ⟨tipId, h⟩) := List.getElem?_eq_getElem h
  have e1 : l[tipId - 1]? = some (l.get ⟨tipId - 1, by omega⟩) := List.getElem?_eq_getElem (by omega)
  have e2 : l[tipId - 2]? = some (l.get ⟨tipId - 2, by omega⟩) := List.getElem?_eq_getElem (by omega)
  have e3 : l[tipId - 3]? = some (l.get ⟨tipId - 3, by omega⟩) := List.getElem?_eq_getElem (by omega)
  simp only [fingerCheck, e0, e1, e2, e3, optBind_some]
  split_ifs <;> rfl

/-- Evaluation of `fingers_up` on an arbitrary list of exactly 21 landmarks,
with each of the five output entries spelled out as its condition from the
source. -/
theorem fingersUp_eq_of_21 (a0 a1 a2 a3 a4 a5 a6 a7 a8 a9 a10 a11 a12 a13 a14
    a15 a16 a17 a18 a19 a20 : Landmark) :
    fingersUp [a0, a1, a2, a3, a4, a5, a6, a7, a8, a9, a10, a11, a12, a13, a14,
      a15, a16, a17, a18, a19, a20] =
    some [(if ((if a0.x > a9.x
                then a4.x < a2.x ∧ ((|a4.x - a2.x| : ℤ) : ℚ) > max (((|a5.x - a17.x| : ℤ) : ℚ) * 0.15) 20
                else a4.x > a2.x ∧ ((|a4.x - a2.x| : ℤ) : ℚ) > max (((|a5.x - a17.x| : ℤ) : ℚ) * 0.15) 20) ∨
            ((|a4.x - a0.x| : ℤ) : ℚ) > ((|a2.x - a0.x| : ℤ) : ℚ) * 1.2) then (1 : ℤ) else 0),
      (if a8.y < a7.y ∧ a7.y ≤ a6.y + 5 ∧ a6.y ≤ a5.y + 10 ∧ a8.y < a5.y - 10 ∧
          ((a5.y - a8.y : ℤ) : ℚ) > ((a5.y - a6.y : ℤ) : ℚ) * 1.5 then (1 : ℤ) else 0),
      (if a12.y < a11.y ∧ a11.y ≤ a10.y + 5 ∧ a10.y ≤ a9.y + 10 ∧ a12.y < a9.y - 10 ∧
          ((a9.y - a12.y : ℤ) : ℚ) > ((a9.y - a10.y : ℤ) : ℚ) * 1.5 then (1 : ℤ) else 0),
      (if a16.y < a15.y ∧ a15.y ≤ a14.y + 5 ∧ a14.y ≤ a13.y + 10 ∧ a16.y < a13.y - 10 ∧
          ((a13.y - a16.y : ℤ) : ℚ) > ((a13.y - a14.y : ℤ) : ℚ) * 1.5 then (1 : ℤ) else 0),
      (if a20.y < a19.y ∧ a19.y ≤ a18.y + 5 ∧ a18.y ≤ a17.y + 10 ∧ a20.y < a17.y - 10 ∧
          ((a17.y - a20.y : ℤ) : ℚ) > ((a17.y - a18.y : ℤ) : ℚ) * 1.5 then (1 : ℤ) else 0)] := by
  have c8 := @fingerCheck_eq_of_lt [a0, a1, a2, a3, a4, a5, a6, a7, a8, a9, a10, a11,
    a12, a13, a14, a15, a16, a17, a18, a19, a20] 8 (by simp) (by omega)
  have c12 := @fingerCheck_eq_of_lt [a0, a1, a2, a3, a4, a5, a6, a7, a8, a9, a10, a11,
    a12, a13, a14, a15, a16, a17, a18, a19, a20] 12 (by simp) (by omega)
  have c16 := @fingerCheck_eq_of_lt [a0, a1, a2, a3, a4, a5, a6, a7, a8, a9, a10, a11,
    a12, a13, a14, a15, a16, a17, a18, a19, a20] 16 (by simp) (by omega)
  have c20 := @fingerCheck_eq_of_lt [a0, a1, a2, a3, a4, a5, a6, a7, a8, a9, a10, a11,
    a12, a13, a14, a15, a16, a17, a18, a19, a20] 20 (by simp) (by omega)
  unfold fingersUp
  rw [if_neg (by simp)]
  simp only [c8, c12, c16, c20, optBind_some]
  rfl

/-- The non-thumb extension rule as the specification states it (§4.2,
conditions A–E) on the four y-coordinates tip, distal joint (DIP), proximal
joint (PIP), base (MCP). -/
def specFingerExtended (tipY dipY pipY mcpY : ℤ) : Prop :=
  tipY < dipY ∧ dipY ≤ pipY + 5 ∧ pipY ≤ mcpY + 10 ∧ tipY < mcpY - 10 ∧
    ((mcpY - tipY : ℤ) : ℚ) > 1.5 * ((mcpY - pipY : ℤ) : ℚ)

instance (a b c d : ℤ) : Decidable (specFingerExtended a b c d) := by
  unfold specFingerExtended; infer_instance

/-- The thumb extension rule as the specification states it (§4.2, thumb
rules 1–4): displacement beyond `max(0.15·palmWidth, 20)` on the
handedness-correct side, or the wrist-distance override. -/
def specThumbExtended (wristX middleBaseX thumbTipX thumbMcpX indexBaseX pinkyBaseX : ℤ) : Prop :=
  (((|thumbTipX - thumbMcpX| : ℤ) : ℚ) > max (0.15 * ((|indexBaseX - pinkyBaseX| : ℤ) : ℚ)) 20 ∧
    (if wristX > middleBaseX then thumbTipX < thumbMcpX else thumbTipX > thumbMcpX)) ∨
  ((|thumbTipX - wristX| : ℤ) : ℚ) > 1.2 * ((|thumbMcpX - wristX| : ℤ) : ℚ)

instance (w m t tm i p : ℤ) : Decidable (specThumbExtended w m t tm i p) := by
  unfold specThumbExtended; infer_instance

theorem finger_cond_iff (tip dip pip mcp : ℤ) :
    (tip < dip ∧ dip ≤ pip + 5 ∧ pip ≤ mcp + 10 ∧ tip < mcp - 10 ∧
      ((mcp - tip : ℤ) : ℚ) > ((mcp - pip : ℤ) : ℚ) * 1.5) ↔
    specFingerExtended tip dip pip mcp := by
  unfold specFingerExtended
  rw [mul_comm]

theorem thumb_cond_iff (w m t tm i p : ℤ) :
    ((if w > m then t < tm ∧ ((|t - tm| : ℤ) : ℚ) > max (((|i - p| : ℤ) : ℚ) * 0.15) 20
       else t > tm ∧ ((|t - tm| : ℤ) : ℚ) > max (((|i - p| : ℤ) : ℚ) * 0.15) 20) ∨
      ((|t - w| : ℤ) : ℚ) > ((|tm - w| : ℤ) : ℚ) * 1.2) ↔
    specThumbExtended w m t tm i p := by
  unfold specThumbExtended
  by_cases h : w > m <;> simp [h, and_comm, mul_comm]

theorem fingersUp_short {l : List Landmark} (h1 : 1 ≤ l.length) (h2 : l.length ≤ 20) :
    fingersUp l = none := by
  have h20 : l[20]? = none := List.getElem?_eq_none (by omega)
  have hfc : fingerCheck l 20 = none := fingerCheck_none h20
  unfold fingersUp
  rw [if_neg (by omega)]
  apply bind_none_of_forall; intro wrist
  apply bind_none_of_forall; intro middleBase
  apply bind_none_of_forall; intro thumbTip
  apply bind_none_of_forall; intro thumbIp
  apply bind_none_of_forall; intro thumbMcp
  apply bind_none_of_forall; intro indexBase
  apply bind_none_of_forall; intro pinkyBase
  apply bind_none_of_forall; intro f1
  apply bind_none_of_forall; intro f2
  apply bind_none_of_forall; intro f3
  rw [hfc]
  rfl

theorem fingersUp_long {l : List Landmark} (h : 21 ≤ l.length) :
    ∃ fs, fingersUp l = some fs ∧ fs.length = 5 := by
  have e0 : l[0]? = some (l.get ⟨0, by omega⟩) := List.getElem?_eq_getElem (by omega)
  have e9 : l[9]? = some (l.get ⟨9, by omega⟩) := List.getElem?_eq_getElem (by omega)
  have e4 : l[4]? = some (l.get ⟨4, by omega⟩) := List.getElem?_eq_getElem (by omega)
  have e3 : l[3]? = some (l.get ⟨3, by omega⟩) := List.getElem?_eq_getElem (by omega)
  have e2 : l[2]? = some (l.get ⟨2, by omega⟩) := List.getElem?_eq_getElem (by omega)
  have e5 : l[5]? = some (l.get ⟨5, by omega⟩) := List.getElem?_eq_getElem (by omega)
  have e17 : l[17]? = some (l.get ⟨17, by omega⟩) := List.getElem?_eq_getElem (by omega)
  have hv1 := @fingerCheck_eq_of_lt l 8 (by omega) (by omega)
  have hv2 := @fingerCheck_eq_of_lt l 12 (by omega) (by omega)
  have hv3 := @fingerCheck_eq_of_lt l 16 (by omega) (by omega)
  have hv4 := @fingerCheck_eq_of_lt l 20 (by omega) (by omega)
  cases hfs : fingersUp l with
  | none =>
    exfalso
    unfold fingersUp at hfs
    rw [if_neg (by omega)] at hfs
    simp only [e0, e9, e4, e3, e2, e5, e17, hv1, hv2, hv3, hv4, optBind_some,
      Option.pure_def] at hfs
    exact Option.noConfusion hfs
  | some fs =>
    refine ⟨fs, rfl, ?_⟩
    unfold fingersUp at hfs
    rw [if_neg (by omega)] at hfs
    simp only [e0, e9, e4, e3, e2, e5, e17, hv1, hv2, hv3, hv4, optBind_some,
      Option.pure_def, Option.some_inj] at hfs
    rw [← hfs]
    rfl

/-- C5 counterexample: on a landmark list of length 1 (any length from 1 to
20 behaves the same way) `fingers_up` does not yield an empty finger-state
result — it raises an `IndexError` (modelled as `none`); the only guard in
the source is `len(landmark_list) == 0`. -/
theorem fingers_up_length_one_raises :
    fingersUp [⟨0, 0, 0⟩] ≠ some [] ∧ fingersUp [⟨0, 0, 0⟩] = none := by
  constructor
  · intro h
    exact absurd (@fingersUp_short [⟨0, 0, 0⟩] (by simp) (by simp) ▸ h)
      (by simp)
  · exact fingersUp_short (by simp) (by simp)

/-- C5 amended: an empty landmark list yields the empty finger-state result;
a landmark list of any length from 1 to 20 makes `fingers_up` raise an
`IndexError` (modelled as `none`), so it never returns a partially filled
vector; and any input with at least 21 landmarks produces a 5-element
finger-state vector. -/
theorem fingers_up_length_cases (l : List Landmark) :
    (l.length = 0 → fingersUp l = some []) ∧
    (1 ≤ l.length → l.length ≤ 20 → fingersUp l = none) ∧
    (21 ≤ l.length → ∃ fs, fingersUp l = some fs ∧ fs.length = 5) := by
  refine ⟨fun h => ?_, fun h1 h2 => fingersUp_short h1 h2, fun h => fingersUp_long h⟩
  unfold fingersUp
  rw [if_pos h]

/-- Witness for `fingers_up_length_cases` at concrete inputs of length 0,
length 1 and length 21. -/
theorem fingers_up_length_cases_witness :
    fingersUp [] = some [] ∧
    fingersUp [⟨0, 0, 0⟩] = none ∧
    ∃ fs, fingersUp ((List.range 21).map fun i => ⟨i, 0, 0⟩) = some fs ∧ fs.length = 5 :=
  ⟨(fingers_up_length_cases []).1 rfl,
   (fingers_up_length_cases [⟨0, 0, 0⟩]).2.1 (by decide) (by decide),
   (fingers_up_length_cases _).2.2 (by decide)⟩

/-- C6: on every 21-landmark input, each non-thumb finger (index, middle,
ring, pinky) is reported extended (entry 1) exactly when all five conditions
A–E of `specFingerExtended` hold on its tip/DIP/PIP/MCP y-coordinates
(landmarks 8-7-6-5, 12-11-10-9, 16-15-14-13, 20-19-18-17), and reported
flexed (entry 0) when any one of them fails. -/
theorem fingers_up_nonthumb_conditions (a0 a1 a2 a3 a4 a5 a6 a7 a8 a9 a10 a11
    a12 a13 a14 a15 a16 a17 a18 a19 a20 : Landmark) :
    ∃ th, fingersUp [a0, a1, a2, a3, a4, a5, a6, a7, a8, a9, a10, a11, a12,
      a13, a14, a15, a16, a17, a18, a19, a20] =
    some [th,
      if specFingerExtended a8.y a7.y a6.y a5.y then 1 else 0,
      if specFingerExtended a12.y a11.y a10.y a9.y then 1 else 0,
      if specFingerExtended a16.y a15.y a14.y a13.y then 1 else 0,
      if specFingerExtended a20.y a19.y a18.y a17.y then 1 else 0] := by
  refine ⟨if specThumbExtended a0.x a9.x a4.x a2.x a5.x a17.x then 1 else 0, ?_⟩
  rw [fingersUp_eq_of_21]
  rw [if_congr (thumb_cond_iff a0.x a9.x a4.x a2.x a5.x a17.x) rfl rfl,
      if_congr (finger_cond_iff a8.y a7.y a6.y a5.y) rfl rfl,
      if_congr (finger_cond_iff a12.y a11.y a10.y a9.y) rfl rfl,
      if_congr (finger_cond_iff a16.y a15.y a14.y a13.y) rfl rfl,
      if_congr (finger_cond_iff a20.y a19.y a18.y a17.y) rfl rfl]

/-- C7: on every 21-landmark input, the thumb is reported extended (first
entry 1) exactly when `specThumbExtended` holds: the horizontal displacement
|thumbTipX − thumbJointX| exceeds max(0.15·|indexBaseX − pinkyBaseX|, 20) on
the handedness-correct side (tip left of joint when wristX >
middleFingerBaseX, tip right of joint otherwise), or the override
|thumbTipX − wristX| > 1.2·|thumbJointX − wristX| holds. -/
theorem fingers_up_thumb_rule (a0 a1 a2 a3 a4 a5 a6 a7 a8 a9 a10 a11 a12 a13
    a14 a15 a16 a17 a18 a19 a20 : Landmark) :
    ∃ rest, fingersUp [a0, a1, a2, a3, a4, a5, a6, a7, a8, a9, a10, a11, a12,
      a13, a14, a15, a16, a17, a18, a19, a20] =
    some ((if specThumbExtended a0.x a9.x a4.x a2.x a5.x a17.x then 1 else 0) :: rest) := by
  refine ⟨[if specFingerExtended a8.y a7.y a6.y a5.y then 1 else 0,
    if specFingerExtended a12.y a11.y a10.y a9.y then 1 else 0,
    if specFingerExtended a16.y a15.y a14.y a13.y then 1 else 0,
    if specFingerExtended a20.y a19.y a18.y a17.y then 1 else 0], ?_⟩
  rw [fingersUp_eq_of_21]
  rw [if_congr (thumb_cond_iff a0.x a9.x a4.x a2.x a5.x a17.x) rfl rfl,
      if_congr (finger_cond_iff a8.y a7.y a6.y a5.y) rfl rfl,
      if_congr (finger_cond_iff a12.y a11.y a10.y a9.y) rfl rfl,
      if_congr (finger_cond_iff a16.y a15.y a14.y a13.y) rfl rfl,
      if_congr (finger_cond_iff a20.y a19.y a18.y a17.y) rfl rfl]

/-! ### Two-hand composition and stability filter (`generate_frames`, web_app.py) -/

/-- One entry of `hands_data` (web_app.py, lines 265–269): the recognized
`number`, `name`, and the wrist x-coordinate used for left/right ordering. -/
structure HandData where
  number : ℤ
  name : String
  wristX : ℤ
deriving DecidableEq, Repr

/-- Stable ascending insertion used to model the stable Python list sort
keyed on wrist x. -/
def pyInsert (x : HandData) : List HandData → List HandData
  | [] => [x]
  | a :: t => if x.wristX ≤ a.wristX then x :: a :: t else a :: pyInsert x t

/-- The sort of `hands_data` by wrist x (web_app.py, line 272): the Python
list sort is stable and ascending, modelled by insertion sort. -/
def pySortByWristX : List HandData → List HandData
  | [] => []
  | x :: t => pyInsert x (pySortByWristX t)

/-- The two-hand combination (web_app.py, lines 285–294), on the already
left/right-ordered pair of `(number, name)` results. -/
def combineTwo (ln rn : ℤ × String) : ℤ × String :=
  if 0 ≤ ln.1 ∧ ln.1 ≤ 9 ∧ 0 ≤ rn.1 ∧ rn.1 ≤ 9 then
    (ln.1 * 10 + rn.1, toString (ln.1 * 10 + rn.1))
  else
    (-2, ln.2 ++ "+" ++ rn.2)

/-- The per-frame composition of `generate_frames` (web_app.py, lines
271–298): sort `hands_data` by wrist x, then branch on its length
(1 hand → pass-through, 2 hands → `combineTwo`, anything else →
`(-1, "Unknown")`). -/
def composeFrame (hands : List HandData) : ℤ × String :=
  match pySortByWristX hands with
  | [h] => (h.number, h.name)
  | [l, r] => combineTwo (l.number, l.name) (r.number, r.name)
  | _ => (-1, "Unknown")

/-- The published `current_gesture` record. -/
structure Gesture where
  number : ℤ
  name : String
  confidence : ℕ
deriving DecidableEq, Repr

/-- The stability-filter state of `generate_frames`: `stable_gesture` and
`stable_count`.  The source initialises `stable_gesture` to the integer `-1`
and resets it to `-1` on the no-hand branch; since a Python integer compares
unequal to every string, that sentinel is modelled as `none`. -/
structure LoopState where
  stableGesture : Option String
  stableCount : ℕ
deriving DecidableEq, Repr

/-- Value of `stable_threshold` (web_app.py, line 179). -/
def stableThreshold : ℕ := 5

/-- The initial `current_gesture` global (web_app.py, lines 72–76). -/
def initialGesture : Gesture := ⟨-1, "未知", 0⟩

/-- The `current_gesture` written by `camera_control` on the stop action
(web_app.py, lines 546–550). -/
def cameraOffGesture : Gesture := ⟨-1, "Camera Off", 0⟩

/-- The stability filter and publication step (web_app.py, lines 300–349)
applied to one composed raw result `c`: increment `stable_count` when
`combined_name == stable_gesture`, else store the new name with count 1;
publish the composed result with confidence `min(100, count/threshold*100)`
once `count >= threshold` and `number != -1`, else publish "Detecting...".
The source computes the confidence by float division; on the publish path
`count >= threshold` makes both the float expression and the exact
`count * 100 / threshold` at least 100, so after the `min` cap the two agree
at every reachable evaluation. -/
def filterStep (st : LoopState) (c : ℤ × String) : LoopState × Gesture :=
  let cnt := if some c.2 = st.stableGesture then st.stableCount + 1 else 1
  let st' : LoopState := ⟨some c.2, cnt⟩
  if cnt ≥ stableThreshold ∧ c.1 ≠ -1 then
    (st', ⟨c.1, c.2, min 100 (cnt * 100 / stableThreshold)⟩)
  else
    (st', ⟨-1, "Detecting...", 0⟩)

/-- One full iteration of the recognition part of `generate_frames`
(web_app.py, lines 250–355): with detected hands the composed result goes
through the stability filter; with no hands the state is reset and
"No Hand Detected" is published. -/
def frameStep (st : LoopState) (handCount : ℕ) (hands : List HandData) :
    LoopState × Gesture :=
  if handCount > 0 then
    filterStep st (composeFrame hands)
  else
    (⟨none, 0⟩, ⟨-1, "No Hand Detected", 0⟩)

/-- Iterate `filterStep` over a sequence of composed raw results, tracking
the latest published gesture. -/
def runFilter (st : LoopState) (g : Gesture) : List (ℤ × String) → LoopState × Gesture
  | [] => (st, g)
  | c :: t => runFilter (filterStep st c).1 (filterStep st c).2 t

/-- Iterate `frameStep` over a sequence of frames (hand count plus hand
data), tracking the latest published gesture. -/
def runLoop (st : LoopState) (g : Gesture) : List (ℕ × List HandData) → LoopState × Gesture
  | [] => (st, g)
  | f :: t => runLoop (frameStep st f.1 f.2).1 (frameStep st f.1 f.2).2 t

/-- The image of `recognize_number`: every per-hand raw result is one of
these eight pairs. -/
def handResults : List (ℤ × String) :=
  [(0, "零"), (1, "一"), (2, "二"), (3, "三"), (4, "四"), (5, "五"), (6, "讚"), (-1, "未知")]

/-- Every raw result the stability filter can see: a single-hand result, a
two-hand combination of such results, or the degenerate `(-1, "Unknown")`. -/
def rawResults : List (ℤ × String) :=
  handResults ++
    (handResults.flatMap fun ln => handResults.map fun rn => combineTwo ln rn) ++
    [(-1, "Unknown")]

theorem pyInsert_length (x : HandData) (l : List HandData) :
    (pyInsert x l).length = l.length + 1 := by
  induction l with
  | nil => rfl
  | cons a t ih =>
    unfold pyInsert
    split
    · simp
    · simp [ih]

theorem pySortByWristX_length (l : List HandData) :
    (pySortByWristX l).length = l.length := by
  induction l with
  | nil => rfl
  | cons a t ih => simp [pySortByWristX, pyInsert_length, ih]

theorem pySortByWristX_mem {x : HandData} {l : List HandData}
    (h : x ∈ pySortByWristX l) : x ∈ l := by
  induction l with
  | nil => simp [pySortByWristX] at h
  | cons a t ih =>
    unfold pySortByWristX at h
    have key : ∀ (m : List HandData), x ∈ pyInsert a m → x = a ∨ x ∈ m := by
      intro m
      induction m with
      | nil => simp [pyInsert]
      | cons b s ihm =>
        unfold pyInsert
        split
        · intro hx
          exact List.mem_cons.mp hx
        · intro hx
          rw [List.mem_cons] at hx
          rcases hx with rfl | hx
          · exact Or.inr (List.mem_cons_self _ _)
          · rcases ihm hx with h1 | h2
            · exact Or.inl h1
            · exact Or.inr (List.mem_cons_of_mem _ h2)
    rcases key _ h with h1 | h2
    · simp [h1]
    · simp [ih h2]

/-- Every value of `recognize_number` is one of the eight pairs of
`handResults`. -/
theorem recognizeNumber_mem_handResults (fingers : List ℤ) :
    recognizeNumber fingers ∈ handResults :=
  match fingers with
  | [] => by simp [recognizeNumber, handResults]
  | [a] => by simp [recognizeNumber, handResults]
  | [a, b] => by simp [recognizeNumber, handResults]
  | [a, b, c] => by simp [recognizeNumber, handResults]
  | [a, b, c, d] => by simp [recognizeNumber, handResults]
  | a :: b :: c :: d :: e :: f :: rest => by simp [recognizeNumber, handResults]
  | [a, b, c, d, e] => by
    simp only [recognizeNumber]
    split_ifs <;> simp [handResults]

theorem combineTwo_mem_rawResults {ln rn : ℤ × String}
    (hl : ln ∈ handResults) (hr : rn ∈ handResults) :
    combineTwo ln rn ∈ rawResults := by
  unfold rawResults
  refine List.mem_append_left _ (List.mem_append_right _ ?_)
  rw [List.mem_flatMap]
  exact ⟨ln, hl, List.mem_map.mpr ⟨rn, hr, rfl⟩⟩

/-- Completeness of `rawResults`: whatever list of per-hand observations the
frame provides (each `(number, name)` per hand coming from
`recognize_number`), the composed raw result lies in `rawResults`. -/
theorem composeFrame_mem_rawResults (hands : List HandData)
    (h : ∀ hd ∈ hands, (hd.number, hd.name) ∈ handResults) :
    composeFrame hands ∈ rawResults := by
  have hUnknown : ((-1 : ℤ), "Unknown") ∈ rawResults := by
    unfold rawResults
    simp
  unfold composeFrame
  cases hs : pySortByWristX hands with
  | nil => exact hUnknown
  | cons x t =>
    cases t with
    | nil =>
      have hx : x ∈ hands := pySortByWristX_mem (by simp [hs])
      exact List.mem_append_left _ (List.mem_append_left _ (h x hx))
    | cons y s =>
      cases s with
      | nil =>
        have hx : x ∈ hands := pySortByWristX_mem (by simp [hs])
        have hy : y ∈ hands := pySortByWristX_mem (by simp [hs])
        exact combineTwo_mem_rawResults (h x hx) (h y hy)
      | cons z u => exact hUnknown

set_option maxRecDepth 10000 in
/-- Over the composable raw results, the composed name determines the whole
`(number, name)` pair: digit strings, the single-hand labels, the
`"+"`-joined combination labels and `"Unknown"` never collide. -/
theorem rawResults_name_inj :
    ∀ r1 ∈ rawResults, ∀ r2 ∈ rawResults, r1.2 = r2.2 → r1 = r2 := by decide

theorem filterStep_fst (st : LoopState) (c : ℤ × String) :
    (filterStep st c).1 =
      ⟨some c.2, if some c.2 = st.stableGesture then st.stableCount + 1 else 1⟩ := by
  unfold filterStep
  dsimp only
  split <;> split <;> rfl

theorem pySort_pair_lt {h1 h2 : HandData} (hw : h1.wristX < h2.wristX) :
    pySortByWristX [h1, h2] = [h1, h2] ∧ pySortByWristX [h2, h1] = [h1, h2] := by
  constructor <;> simp [pySortByWristX, pyInsert, le_of_lt hw, not_le.mpr hw]

theorem composeFrame_pair {hands : List HandData} {l r : HandData}
    (h : pySortByWristX hands = [l, r]) :
    composeFrame hands = combineTwo (l.number, l.name) (r.number, r.name) := by
  unfold composeFrame
  rw [h]

/-- C2: for a frame with exactly two hand observations, sorted ascending by
wrist x (either input order): when both gestureIds lie in [0, 9] the combined
number is leftId·10 + rightId with the decimal string as name — and swapping
the two wrist x positions swaps tens and units — otherwise the combined
number is −2 and the name is leftLabel ++ "+" ++ rightLabel, left label
first. -/
theorem two_hand_composition (h1 h2 : HandData) (hw : h1.wristX < h2.wristX) :
    ((0 ≤ h1.number ∧ h1.number ≤ 9) ∧ (0 ≤ h2.number ∧ h2.number ≤ 9) →
      composeFrame [h1, h2] =
        (h1.number * 10 + h2.number, toString (h1.number * 10 + h2.number)) ∧
      composeFrame [h2, h1] =
        (h1.number * 10 + h2.number, toString (h1.number * 10 + h2.number)) ∧
      composeFrame [⟨h1.number, h1.name, h2.wristX⟩, ⟨h2.number, h2.name, h1.wristX⟩] =
        (h2.number * 10 + h1.number, toString (h2.number * 10 + h1.number))) ∧
    (¬((0 ≤ h1.number ∧ h1.number ≤ 9) ∧ (0 ≤ h2.number ∧ h2.number ≤ 9)) →
      composeFrame [h1, h2] = (-2, h1.name ++ "+" ++ h2.name) ∧
      composeFrame [h2, h1] = (-2, h1.name ++ "+" ++ h2.name)) := by
  obtain ⟨s1, s2⟩ := pySort_pair_lt hw
  have hw' : (⟨h2.number, h2.name, h1.wristX⟩ : HandData).wristX <
      (⟨h1.number, h1.name, h2.wristX⟩ : HandData).wristX := hw
  obtain ⟨s3, s4⟩ := pySort_pair_lt hw'
  constructor
  · intro hd
    refine ⟨?_, ?_, ?_⟩
    · rw [composeFrame_pair s1]
      unfold combineTwo
      rw [if_pos (by tauto)]
    · rw [composeFrame_pair s2]
      unfold combineTwo
      rw [if_pos (by tauto)]
    · rw [composeFrame_pair s4]
      unfold combineTwo
      rw [if_pos (by tauto)]
  · intro hd
    constructor
    · rw [composeFrame_pair s1]
      unfold combineTwo
      rw [if_neg (by tauto)]
    · rw [composeFrame_pair s2]
      unfold combineTwo
      rw [if_neg (by tauto)]

/-- Witness for `two_hand_composition` at the example of the spec: a hand at
x = 100 showing 2 and a hand at x = 500 showing 3 combine to 23, and
swapping the x positions yields 32. -/
theorem two_hand_composition_witness :
    composeFrame [⟨2, "二", 100⟩, ⟨3, "三", 500⟩] = (23, "23") ∧
    composeFrame [⟨2, "二", 500⟩, ⟨3, "三", 100⟩] = (32, "32") := by
  have h := two_hand_composition ⟨2, "二", 100⟩ ⟨3, "三", 500⟩ (by decide)
  obtain ⟨hc1, _, hc3⟩ := h.1 (by decide)
  constructor
  · exact hc1.trans (by decide)
  · exact hc3.trans (by decide)

theorem filterStep_same (A : ℤ × String) (cnt : ℕ) :
    filterStep ⟨some A.2, cnt⟩ A =
      (⟨some A.2, cnt + 1⟩,
       if cnt + 1 ≥ stableThreshold ∧ A.1 ≠ -1 then
         ⟨A.1, A.2, min 100 ((cnt + 1) * 100 / stableThreshold)⟩
       else ⟨-1, "Detecting...", 0⟩) := by
  unfold filterStep
  dsimp only
  rw [if_pos rfl]
  split <;> simp [*]

theorem filterStep_diff {A B : ℤ × String} (hne : B.2 ≠ A.2) (cnt : ℕ) :
    filterStep ⟨some A.2, cnt⟩ B = (⟨some B.2, 1⟩, ⟨-1, "Detecting...", 0⟩) := by
  simp [filterStep, hne, stableThreshold]

theorem filterStep_init (A : ℤ × String) :
    filterStep ⟨none, 0⟩ A = (⟨some A.2, 1⟩, ⟨-1, "Detecting...", 0⟩) := by
  simp [filterStep, stableThreshold]

theorem runFilter_append (st : LoopState) (g : Gesture) (xs ys : List (ℤ × String)) :
    runFilter st g (xs ++ ys) =
      runFilter (runFilter st g xs).1 (runFilter st g xs).2 ys := by
  induction xs generalizing st g with
  | nil => rfl
  | cons c t ih => simp [runFilter, ih]

theorem runFilter_replicate (A : ℤ × String) (cnt : ℕ) (g : Gesture) (m : ℕ)
    (hm : 1 ≤ m) :
    runFilter ⟨some A.2, cnt⟩ g (List.replicate m A) =
      (⟨some A.2, cnt + m⟩,
       if cnt + m ≥ stableThreshold ∧ A.1 ≠ -1 then
         ⟨A.1, A.2, min 100 ((cnt + m) * 100 / stableThreshold)⟩
       else ⟨-1, "Detecting...", 0⟩) := by
  induction m generalizing cnt g with
  | zero => omega
  | succ m ih =>
    rw [List.replicate_succ]
    show runFilter (filterStep ⟨some A.2, cnt⟩ A).1 (filterStep ⟨some A.2, cnt⟩ A).2
      (List.replicate m A) = _
    rw [filterStep_same]
    cases Nat.eq_zero_or_pos m with
    | inl h0 =>
      subst h0
      simp [runFilter]
    | inr h1 =>
      rw [ih (cnt + 1) _ h1]
      have : cnt + 1 + m = cnt + (m + 1) := by omega
      rw [this]

theorem runFilter_replicate_init (A : ℤ × String) (k : ℕ) (hk : 1 ≤ k) :
    runFilter ⟨none, 0⟩ initialGesture (List.replicate k A) =
      (⟨some A.2, k⟩,
       if k ≥ stableThreshold ∧ A.1 ≠ -1 then
         ⟨A.1, A.2, min 100 (k * 100 / stableThreshold)⟩
       else ⟨-1, "Detecting...", 0⟩) := by
  cases k with
  | zero => omega
  | succ k =>
    rw [List.replicate_succ]
    show runFilter (filterStep ⟨none, 0⟩ A).1 (filterStep ⟨none, 0⟩ A).2
      (List.replicate k A) = _
    rw [filterStep_init]
    cases Nat.eq_zero_or_pos k with
    | inl h0 =>
      subst h0
      simp [runFilter, stableThreshold]
    | inr h1 =>
      rw [runFilter_replicate A 1 _ k h1]
      have : 1 + k = k + 1 := by omega
      rw [this]

/-- C3 counterexample: feeding the unrecognized raw key (-1, "未知") for
exactly 5 consecutive frames does NOT confirm on the 5th frame — the
publication also requires `combined_number != -1`, so the published result
stays "Detecting..." with confidence 0, not the key with confidence 100. -/
theorem stability_sentinel_five_frames :
    (runFilter ⟨none, 0⟩ initialGesture (List.replicate 5 ((-1 : ℤ), "未知"))).2 =
      ⟨-1, "Detecting...", 0⟩ ∧
    (runFilter ⟨none, 0⟩ initialGesture (List.replicate 5 ((-1 : ℤ), "未知"))).2 ≠
      ⟨-1, "未知", 100⟩ := by
  constructor
  · rw [runFilter_replicate_init _ 5 (by omega)]
    simp [stableThreshold]
  · rw [runFilter_replicate_init _ 5 (by omega)]
    simp [stableThreshold]

/-- C3 amended: the stability filter with threshold 5 increments the count on
a repeated raw key and resets it to 1 on a new key; feeding raw key A for 4
consecutive frames and then a different key B resets the count to 1 with A
never confirmed, while feeding A — provided its number is not the −1
sentinel — for exactly 5 consecutive frames confirms on the 5th frame with
confidence min(100, 100·count/threshold) = 100, and holding it further keeps
the confidence capped at 100 (the −1 sentinel key never confirms, see the
counterexample). -/
theorem stability_filter_scenario (A B : ℤ × String) (hA : A ∈ rawResults)
    (hB : B ∈ rawResults) (hne : A ≠ B) (hsent : A.1 ≠ -1) :
    (∀ k, 1 ≤ k → k ≤ 4 →
      runFilter ⟨none, 0⟩ initialGesture (List.replicate k A) =
        (⟨some A.2, k⟩, ⟨-1, "Detecting...", 0⟩)) ∧
    runFilter ⟨none, 0⟩ initialGesture (List.replicate 4 A ++ [B]) =
      (⟨some B.2, 1⟩, ⟨-1, "Detecting...", 0⟩) ∧
    (∀ m, 5 ≤ m →
      runFilter ⟨none, 0⟩ initialGesture (List.replicate m A) =
        (⟨some A.2, m⟩, ⟨A.1, A.2, 100⟩)) := by
  have hname : B.2 ≠ A.2 := by
    intro h
    exact hne (rawResults_name_inj A hA B hB h.symm)
  refine ⟨fun k hk1 hk4 => ?_, ?_, fun m hm => ?_⟩
  · rw [runFilter_replicate_init A k hk1]
    rw [if_neg (by simp [stableThreshold]; omega)]
  · rw [runFilter_append]
    rw [runFilter_replicate_init A 4 (by omega)]
    rw [if_neg (by simp [stableThreshold])]
    show runFilter (filterStep ⟨some A.2, 4⟩ B).1 (filterStep ⟨some A.2, 4⟩ B).2 [] = _
    rw [filterStep_diff hname]
    rfl
  · rw [runFilter_replicate_init A m (by omega)]
    rw [if_pos ⟨by simp [stableThreshold]; omega, hsent⟩]
    have : min 100 (m * 100 / stableThreshold) = 100 := by
      simp only [stableThreshold]
      omega
    rw [this]

/-- Witness for `stability_filter_scenario` with A = (2, "二") and
B = (3, "三"): five consecutive frames of A publish (2, "二") with
confidence 100. -/
theorem stability_filter_scenario_witness :
    ((2 : ℤ), "二") ∈ rawResults ∧ ((3 : ℤ), "三") ∈ rawResults ∧
    runFilter ⟨none, 0⟩ initialGesture (List.replicate 5 ((2 : ℤ), "二")) =
      (⟨some ("二"), 5⟩, ⟨2, "二", 100⟩) ∧
    runFilter ⟨none, 0⟩ initialGesture
        (List.replicate 4 ((2 : ℤ), "二") ++ [((3 : ℤ), "三")]) =
      (⟨some ("三"), 1⟩, ⟨-1, "Detecting...", 0⟩) := by
  have h := stability_filter_scenario (2, "二") (3, "三") (by decide) (by decide)
    (by decide) (by decide)
  exact ⟨by decide, by decide, h.2.2 5 (by omega), h.2.1⟩

/-- C8: the raw key the stability filter compares between consecutive frames
is (extensionally) the composed pair (number, name): every per-hand result is
one of `handResults`, every composed raw result is one of `rawResults`, and
for raw results the frame-to-frame identity test succeeds — incrementing the
count — exactly when the pairs are equal, and otherwise resets the count
to 1.  (The source stores and compares only the composed name; over
`rawResults` the name determines the pair, `rawResults_name_inj`.) -/
theorem stability_key_is_composed_pair :
    (∀ fingers : List ℤ, recognizeNumber fingers ∈ handResults) ∧
    (∀ hands : List HandData, (∀ hd ∈ hands, (hd.number, hd.name) ∈ handResults) →
      composeFrame hands ∈ rawResults) ∧
    (∀ r1 ∈ rawResults, ∀ r2 ∈ rawResults, ∀ cnt : ℕ,
      (filterStep ⟨some r1.2, cnt⟩ r2).1 =
        ⟨some r2.2, if r1 = r2 then cnt + 1 else 1⟩) := by
  refine ⟨recognizeNumber_mem_handResults, composeFrame_mem_rawResults,
    fun r1 h1 r2 h2 cnt => ?_⟩
  rw [filterStep_fst]
  have : (if some r2.2 = (⟨some r1.2, cnt⟩ : LoopState).stableGesture
      then (⟨some r1.2, cnt⟩ : LoopState).stableCount + 1 else 1) =
      if r1 = r2 then cnt + 1 else 1 := by
    by_cases he : r1 = r2
    · subst he
      simp
    · have hn : ¬ some r2.2 = some r1.2 := by
        simp only [Option.some_inj]
        intro hnm
        exact he (rawResults_name_inj r1 h1 r2 h2 hnm.symm)
      rw [if_neg hn, if_neg he]
  rw [this]

/-- Witness for `stability_key_is_composed_pair`: a concrete recognizer
output, a concrete composed frame, a differing-pair reset and an equal-pair
increment. -/
theorem stability_key_is_composed_pair_witness :
    recognizeNumber [0, 1, 1, 0, 0] ∈ handResults ∧
    composeFrame [⟨2, "二", 100⟩, ⟨3, "三", 500⟩] ∈ rawResults ∧
    (filterStep ⟨some ("二"), 3⟩ ((3 : ℤ), "三")).1 = ⟨some ("三"), 1⟩ ∧
    (filterStep ⟨some ("二"), 3⟩ ((2 : ℤ), "二")).1 = ⟨some ("二"), 4⟩ :=
  ⟨stability_key_is_composed_pair.1 [0, 1, 1, 0, 0],
   stability_key_is_composed_pair.2.1 [⟨2, "二", 100⟩, ⟨3, "三", 500⟩] (by decide),
   (stability_key_is_composed_pair.2.2 (2, "二") (by decide) (3, "三") (by decide) 3).trans
     (by decide),
   (stability_key_is_composed_pair.2.2 (2, "二") (by decide) (2, "二") (by decide) 3).trans
     (by decide)⟩

/-- C4 counterexample: five consecutive frames of two hands where the left
hand is unrecognized ((-1, "未知") at x = 100) and the right shows 2
(("二") at x = 500) compose to the raw result (-2, "未知+二") each frame, and
on the 5th frame the loop publishes it as a CONFIRMED classification with
confidence 100 — not a transient status — because the publication guard only
excludes composed number -1, and this composition has number -2. -/
theorem unknown_combo_gets_confirmed :
    (runLoop ⟨none, 0⟩ initialGesture
        (List.replicate 5 (2, [⟨-1, "未知", 100⟩, ⟨2, "二", 500⟩]))).2 =
      ⟨-2, "未知+二", 100⟩ := by decide

/-- C4 amended: whenever the composed raw number of the current frame is the -1
sentinel (single-hand unrecognized or the degenerate branch) or no hand is
detected, the published result is a transient status ("Detecting…" or
"No Hand Detected"), never a confirmed classification, no matter the
stability state; a two-hand composition involving an unrecognized hand,
however, composes to number -2 and CAN be confirmed (see the
counterexample). -/
theorem no_confirm_of_sentinel (st : LoopState) (handCount : ℕ)
    (hands : List HandData)
    (h : handCount = 0 ∨ (composeFrame hands).1 = -1) :
    (frameStep st handCount hands).2 = ⟨-1, "No Hand Detected", 0⟩ ∨
    (frameStep st handCount hands).2 = ⟨-1, "Detecting...", 0⟩ := by
  rcases h with h | h
  · left
    simp [frameStep, h]
  · rcases Nat.eq_zero_or_pos handCount with h0 | h0
    · left
      simp [frameStep, h0]
    · right
      unfold frameStep
      rw [if_pos h0]
      unfold filterStep
      dsimp only
      rw [if_neg (fun hc => hc.2 h)]

/-- Witness for `no_confirm_of_sentinel`: a no-hand frame publishes
"No Hand Detected", and a frame whose only hand is unrecognized publishes a
transient status even from a state that already counted 9 identical frames. -/
theorem no_confirm_of_sentinel_witness :
    ((frameStep ⟨none, 0⟩ 0 []).2 = ⟨-1, "No Hand Detected", 0⟩ ∨
      (frameStep ⟨none, 0⟩ 0 []).2 = ⟨-1, "Detecting...", 0⟩) ∧
    ((frameStep ⟨some ("未知"), 9⟩ 1 [⟨-1, "未知", 0⟩]).2 = ⟨-1, "No Hand Detected", 0⟩ ∨
      (frameStep ⟨some ("未知"), 9⟩ 1 [⟨-1, "未知", 0⟩]).2 = ⟨-1, "Detecting...", 0⟩) :=
  ⟨no_confirm_of_sentinel ⟨none, 0⟩ 0 [] (Or.inl rfl),
   no_confirm_of_sentinel ⟨some ("未知"), 9⟩ 1 [⟨-1, "未知", 0⟩] (Or.inr (by decide))⟩

/-- C10: every published current-gesture value carries confidence exactly 0
or exactly 100: the initial value, the Camera Off value and the transient
statuses carry 0, and every confirmed publication carries 100 because
min(100, count·100/threshold) = 100 once count ≥ threshold. -/
theorem published_confidence_zero_or_hundred :
    initialGesture.confidence = 0 ∧ cameraOffGesture.confidence = 0 ∧
    ∀ (st : LoopState) (handCount : ℕ) (hands : List HandData),
      ((frameStep st handCount hands).2.confidence = 0 ∧
        (frameStep st handCount hands).2.number = -1 ∧
        ((frameStep st handCount hands).2.name = "Detecting..." ∨
          (frameStep st handCount hands).2.name = "No Hand Detected")) ∨
      (frameStep st handCount hands).2.confidence = 100 := by
  refine ⟨rfl, rfl, fun st handCount hands => ?_⟩
  unfold frameStep
  split
  · unfold filterStep
    dsimp only
    split
    · split
      · right
        rename_i hcond
        have h5 := hcond.1
        dsimp only
        simp only [stableThreshold] at h5 ⊢
        omega
      · left
        exact ⟨rfl, rfl, Or.inl rfl⟩
    · split
      · right
        rename_i hcond
        have h5 := hcond.1
        dsimp only
        simp only [stableThreshold] at h5 ⊢
        omega
      · left
        exact ⟨rfl, rfl, Or.inl rfl⟩
  · left
    exact ⟨rfl, rfl, Or.inr rfl⟩
